import Mathlib

/-!
# OS/161 system-call dispatch, fork and execv (`arch/mips/mips/syscall.c`)

A shallow embedding of `mips_syscall`, `sys_execv`, `sys_getpid`,
`md_forkentry_mod`, `sys_fork`, `sys_read` and `sys_write`.

Conventions of the embedding.

* `int`, `int32_t`, `u_int32_t`, `size_t`, `pid_t` and every pointer are 32-bit
  words on this machine.  A value is its bit pattern, a `Nat`; conversions
  between these C types keep the pattern, and the tests of the source
  (`if (err)`, `==`, `!= NULL`, the `switch`) only look at the pattern.  The
  arithmetic of the source is reduced modulo `2^32` where it is done.
* Functions that this file calls but does not define (the scheduler, the
  address-space manager, the VFS layer, the loader, the kernel heap, user
  memory) are fields of a `world`: what each call answers.  Every call is also
  appended to a trace of `event`s, so that "is not called" can be stated.
* An `outcome` has `value = none` when control never comes back to the caller
  (the thread exits, the kernel stops on a failed assertion or on a fault, a
  new program image runs), and also where C leaves the behaviour undefined (a
  store through the null pointer that `kmalloc` returned, a read through an
  uninitialised pointer): the model stops there.
-/

namespace OS161

/-- Number of values of a 32-bit register. -/
def WORD : Nat := 4294967296

/-- The null pointer. -/
def NULL : Nat := 0

/-- Modelled from the spec: `machine/trapframe.h` is not in the source.  The
six registers that `syscall.c` names are fields of their own; `tf_other` holds
all the remaining saved registers of the frame, in declaration order. -/
structure trapframe where
  tf_v0 : Nat
  tf_a0 : Nat
  tf_a1 : Nat
  tf_a2 : Nat
  tf_a3 : Nat
  tf_epc : Nat
  tf_other : List Nat
deriving DecidableEq

/-- Modelled from the spec: `thread.h` is not in the source.  The two fields
of `struct thread` that `syscall.c` reads or writes; `t_vmspace` is the
pointer to the address space. -/
structure thread where
  pid : Nat
  t_vmspace : Nat
deriving DecidableEq

/-- The globals that `syscall.c` reads or writes: `curthread` and `curspl`. -/
structure kernel where
  curthread : thread
  curspl : Nat
deriving DecidableEq

/-- Values of `enum uio_rw` (`uio.h`, not in the source). -/
inductive uio_rw where
  | UIO_READ
  | UIO_WRITE
deriving DecidableEq

/-- Values of `enum uio_seg` (`uio.h`, not in the source). -/
inductive uio_seg where
  | UIO_USERISPACE
  | UIO_USERSPACE
  | UIO_SYSSPACE
deriving DecidableEq

/-- The fields of `struct uio` that `sys_read` and `sys_write` fill in. -/
structure uio where
  iov_ubase : Nat
  iov_len : Nat
  uio_resid : Nat
  uio_rw : uio_rw
  uio_offset : Nat
  uio_segflg : uio_seg
  uio_space : Nat
deriving DecidableEq

/-- The constants of `kern/callno.h`, `kern/errno.h` and
`machine/trapframe.h` that the code uses.  The headers are not in the source,
so the numbers are parameters of the model. -/
structure headers where
  SYS__exit : Nat
  SYS_reboot : Nat
  SYS_write : Nat
  SYS_read : Nat
  SYS_fork : Nat
  SYS_getpid : Nat
  SYS_execv : Nat
  ENOSYS : Nat
  EFAULT : Nat
  EBADF : Nat
  ENOMEM : Nat
  ENAMETOOLONG : Nat
  sizeof_trapframe : Nat

/-- The call numbers that `mips_syscall` has a `case` for. -/
def headers.recognized (k : headers) : List Nat :=
  [k.SYS__exit, k.SYS_reboot, k.SYS_write, k.SYS_read, k.SYS_fork, k.SYS_getpid, k.SYS_execv]

/-- A consistent set of header constants for the concrete examples.  The
general theorems below do not depend on the numbers: they hold for every
`headers` whose `case` labels are pairwise distinct, as C requires of one
`switch`. -/
def os161 : headers where
  SYS__exit := 0
  SYS_execv := 1
  SYS_fork := 2
  SYS_read := 5
  SYS_write := 6
  SYS_reboot := 8
  SYS_getpid := 11
  ENOSYS := 1
  ENOMEM := 3
  EFAULT := 6
  ENAMETOOLONG := 7
  EBADF := 17
  sizeof_trapframe := 148

/-- A call made to code outside `syscall.c`, with its arguments. -/
inductive event where
  | assert_failed
  | kernel_fault
  | null_store
  | kprintf (fmt : String) (args : List Nat)
  | thread_exit
  | sys_reboot (code : Nat)
  | kstrdup (s : String)
  | vfs_open (path : Option String) (openflags : Nat)
  | VOP_WRITE (vn : Nat) (u : uio)
  | vfs_close (vn : Nat)
  | kmalloc (size : Nat)
  | kfree
  | as_copy (src : Nat)
  | as_activate (as : Nat)
  | thread_fork_mod (name : String) (tf : trapframe) (as : Nat)
  | mips_usermode (tf : trapframe)
  | copyinstr (usersrc : Nat) (len : Nat) (result : Nat)
  | runprogram (program : List Nat) (argv : List (List Nat)) (argc : Nat)
deriving DecidableEq

/-- What the code outside `syscall.c` answers.

* `sys_reboot`, `runprogram`: the returned `int`, or `none` when the call does
  not return (the machine went down; the new image is running).
* `kstrdup`: whether the heap could hold the copy (`false`: it returns NULL).
* `vfs_open`: the returned `int` and the word left in `vn`.
* `VOP_WRITE`: the returned `int`.
* `kmalloc n size`: the `n`-th allocation of a dispatch; `none` is NULL;
  otherwise the bytes the fresh block happens to hold, by offset.
* `as_copy`: the returned `int` and the word left in `temp_addrspace`.
* `thread_fork_mod`: the returned `int`, and what `child_thread->pid` reads
  afterwards (`none`: `child_thread` does not point to a thread).
* `load_word`, `load_byte`: user memory as the current address space maps it;
  `none` where an access faults.  Addresses are taken in user space: a
  pointer into the kernel's own segments, which a direct read would not fault
  on, is outside the model. -/
structure world where
  sys_reboot : Nat → Option Nat
  kstrdup : String → Bool
  vfs_open : Option String → Nat → Nat × Nat
  VOP_WRITE : Nat → uio → Nat
  kmalloc : Nat → Nat → Option (Nat → Nat)
  as_copy : Nat → Nat × Nat
  thread_fork_mod : String → trapframe → Nat → Nat × Option Nat
  runprogram : List Nat → List (List Nat) → Nat → Option Nat
  load_word : Nat → Option Nat
  load_byte : Nat → Option Nat

/-- What a function did: the calls it made, the globals afterwards, and what
it returned (`none`: it did not return). -/
structure outcome (α : Type) where
  trace : List event
  kern : kernel
  value : Option α

/-- `int sys_getpid()`. -/
def sys_getpid (s : kernel) : Nat :=
  s.curthread.pid

/-- `void md_forkentry_mod(struct trapframe *tf, struct addrspace *as)`; `tf`
is the content of the frame that the pointer refers to.  `mips_usermode` does
not return. -/
def md_forkentry_mod (tf : trapframe) (as : Nat) (s : kernel) : outcome Unit :=
  let s1 : kernel := { s with curthread := { s.curthread with t_vmspace := as } }
  let temp_tf : trapframe := tf
  let temp_tf : trapframe := { temp_tf with tf_v0 := 0 }
  let temp_tf : trapframe := { temp_tf with tf_a3 := 0 }
  let temp_tf : trapframe := { temp_tf with tf_epc := (temp_tf.tf_epc + 4) % WORD }
  { trace := [event.as_activate s1.curthread.t_vmspace, event.kfree, event.mips_usermode temp_tf]
    kern := s1
    value := none }

/-- `int sys_fork(struct trapframe *tf, int32_t *return_val, pid_t parent_pid,
int32_t *retval)`; `return_val` and `parent_pid` are not used by the body.
The value is the returned `int` and the content of `*retval` afterwards
(every path that returns has written it). -/
def sys_fork (k : headers) (w : world) (s : kernel) (tf : trapframe) : outcome (Nat × Nat) :=
  let t0 := [event.kprintf "pc before: %x\n" [tf.tf_epc], event.kmalloc k.sizeof_trapframe]
  match w.kmalloc 0 k.sizeof_trapframe with
  | none =>
    -- memcpy(NULL, tf, ...)
    { trace := t0 ++ [event.null_store], kern := s, value := none }
  | some _ =>
    let tf_copy : trapframe := tf
    let copy_ret := (w.as_copy s.curthread.t_vmspace).1
    let temp_addrspace := (w.as_copy s.curthread.t_vmspace).2
    let t1 := t0 ++ [event.as_copy s.curthread.t_vmspace]
    -- if(copy_ret) { //take care of errors here }
    let t1 := if copy_ret ≠ 0 then t1 else t1
    let r := w.thread_fork_mod "child process" tf_copy temp_addrspace
    let t2 := t1 ++ [event.thread_fork_mod "child process" tf_copy temp_addrspace]
    match r.2 with
    | none => { trace := t2 ++ [event.kernel_fault], kern := s, value := none }
    | some child_pid =>
      { trace := t2 ++ [event.kprintf "We are returning child process wih pid :%d\n" [child_pid]]
        kern := s
        value := some (0, child_pid) }

/-- `int sys_read(int fd, const void *buf, size_t nbytes, int32_t* return_val)`. -/
def sys_read (k : headers) (w : world) (s : kernel) (fd buf nbytes : Nat) (retval : Nat) :
    outcome (Nat × Nat) :=
  if fd = 1 ∨ fd = 2 then
    if buf = NULL then
      { trace := [], kern := s, value := some (k.EFAULT, retval) }
    else
      let console : Option String := if w.kstrdup "con:" then some "con:" else none
      let vn := (w.vfs_open console 0).2
      let u : uio :=
        { iov_ubase := buf
          iov_len := nbytes
          uio_resid := nbytes
          uio_rw := uio_rw.UIO_READ
          uio_offset := 0
          uio_segflg := uio_seg.UIO_USERSPACE
          uio_space := s.curthread.t_vmspace }
      let result := w.VOP_WRITE vn u
      let t := [event.kstrdup "con:", event.vfs_open console 0, event.VOP_WRITE vn u]
      if result ≠ 0 then
        { trace := t, kern := s, value := some (result, nbytes) }
      else
        { trace := t ++ [event.vfs_close vn], kern := s, value := some (0, nbytes) }
  else
    { trace := [], kern := s, value := some (k.EBADF, retval) }

/-- `int sys_write (int fd, const void *buf, size_t nbytes, int32_t* return_val)`. -/
def sys_write (k : headers) (w : world) (s : kernel) (fd buf nbytes : Nat) (retval : Nat) :
    outcome (Nat × Nat) :=
  if fd = 1 ∨ fd = 2 then
    if buf = NULL then
      { trace := [], kern := s, value := some (k.EFAULT, retval) }
    else
      let console : Option String := if w.kstrdup "con:" then some "con:" else none
      let result := (w.vfs_open console 1).1
      let vn := (w.vfs_open console 1).2
      let t := [event.kstrdup "con:", event.vfs_open console 1]
      if result ≠ 0 then
        { trace := t, kern := s, value := some (result, retval) }
      else
        let u : uio :=
          { iov_ubase := buf
            iov_len := nbytes
            uio_resid := nbytes
            uio_rw := uio_rw.UIO_WRITE
            uio_offset := 0
            uio_segflg := uio_seg.UIO_USERSPACE
            uio_space := s.curthread.t_vmspace }
        let result := w.VOP_WRITE vn u
        let t := t ++ [event.VOP_WRITE vn u]
        if result ≠ 0 then
          { trace := t, kern := s, value := some (result, nbytes) }
        else
          { trace := t ++ [event.vfs_close vn], kern := s, value := some (0, nbytes) }
  else
    { trace := [], kern := s, value := some (k.EBADF, retval) }

/-- The scan `while (args[i] != NULL) { argc++; i++; }`: the kernel reads the
user array directly.  `none`: a read faults, or no null entry is met in
`fuel` entries. -/
def count_args (w : world) (args : Nat) : Nat → Nat → Option Nat
  | 0, _ => none
  | fuel + 1, i =>
    match w.load_word ((args + 4 * i) % WORD) with
    | none => none
    | some p => if p = NULL then some i else count_args w args fuel (i + 1)

/-- The byte scan of `strlen`, started `n` bytes into the string at `p`; the
kernel reads user memory directly.  `none`: a read faults, or no NUL is met
in `fuel` bytes. -/
def strlen_from (w : world) (p : Nat) : Nat → Nat → Option Nat
  | 0, _ => none
  | fuel + 1, n =>
    match w.load_byte ((p + n) % WORD) with
    | none => none
    | some b => if b = 0 then some n else strlen_from w p fuel (n + 1)

/-- `strlen(p)` on a user pointer.  The address space has `WORD` bytes, so a
scan that meets no NUL in `WORD` bytes never ends. -/
def strlen (w : world) (p : Nat) : Option Nat :=
  strlen_from w p WORD 0

/-- Modelled from the spec: `copyinstr` (`lib/copyinout.c`) is not in the
source.  It copies a string from user memory into a kernel buffer of `len`
bytes, the NUL included, and reports instead of faulting: `EFAULT` when a
user address is invalid, `ENAMETOOLONG` when `len` bytes hold no NUL.  The
value is the result and the bytes stored in the buffer, from its start. -/
def copyinstr_from (k : headers) (w : world) (usersrc : Nat) : Nat → Nat → Nat × List Nat
  | 0, _ => (k.ENAMETOOLONG, [])
  | len + 1, i =>
    match w.load_byte ((usersrc + i) % WORD) with
    | none => (k.EFAULT, [])
    | some b =>
      if b = 0 then (0, [0])
      else ((copyinstr_from k w usersrc len (i + 1)).1, b :: (copyinstr_from k w usersrc len (i + 1)).2)

/-- Modelled from the spec: `copyinstr(usersrc, dest, len, NULL)`, see
`copyinstr_from`. -/
def copyinstr (k : headers) (w : world) (usersrc len : Nat) : Nat × List Nat :=
  copyinstr_from k w usersrc len 0

/-- The bytes of a fresh `kmalloc` block of `size` bytes. -/
def fresh_block (g : Nat → Nat) (size : Nat) : List Nat :=
  (List.range size).map g

/-- A buffer after `stored` was written from its start. -/
def overwrite (block stored : List Nat) : List Nat :=
  stored ++ block.drop stored.length

/-- The statement pair of `sys_execv`
`dest = kmalloc(strlen(s) + 1); copyinstr(src, dest, strlen(s) + 1, NULL);`
as allocation number `n` of the call: the trace, and the bytes of `dest`
afterwards.  The result of `copyinstr` is dropped, as in the source.
`none`: `strlen` faults, or `kmalloc` returned NULL and is written through. -/
def alloc_and_copy (k : headers) (w : world) (n s src : Nat) : List event × Option (List Nat) :=
  match strlen w s with
  | none => ([event.kernel_fault], none)
  | some l =>
    let size := (l + 1) % WORD
    match w.kmalloc n size with
    | none => ([event.kmalloc size, event.null_store], none)
    | some g =>
      let c := copyinstr k w src size
      ([event.kmalloc size, event.copyinstr src size c.1], some (overwrite (fresh_block g size) c.2))

/-- The loop `for(j = 0; j < argc; j++) { argv[j] = kmalloc(strlen(args[j]) + 1);
copyinstr(args[j], argv[j], strlen(args[j])+1, NULL); }` with `todo = argc - j`
iterations left: the trace and the buffers `argv[j], ..., argv[argc-1]`. -/
def copy_args (k : headers) (w : world) (args : Nat) : Nat → Nat → List event × Option (List (List Nat))
  | 0, _ => ([], some [])
  | todo + 1, j =>
    match w.load_word ((args + 4 * j) % WORD) with
    | none => ([event.kernel_fault], none)
    | some p =>
      match alloc_and_copy k w (j + 1) p p with
      | (t, none) => (t, none)
      | (t, some b) =>
        match copy_args k w args todo (j + 1) with
        | (t2, none) => (t ++ t2, none)
        | (t2, some bs) => (t ++ t2, some (b :: bs))

/-- `int sys_execv(struct trapframe *tf)`. -/
def sys_execv (k : headers) (w : world) (s : kernel) (tf : trapframe) : outcome Nat :=
  let prog := tf.tf_a0
  let args := tf.tf_a1
  match count_args w args (WORD / 4) 0 with
  | none => { trace := [event.kernel_fault], kern := s, value := none }
  | some argc =>
    match w.load_word (args % WORD) with
    | none => { trace := [event.kernel_fault], kern := s, value := none }
    | some args0 =>
      match alloc_and_copy k w 0 args0 prog with
      | (t, none) => { trace := t, kern := s, value := none }
      | (t, some program) =>
        match copy_args k w args argc 0 with
        | (t2, none) => { trace := t ++ t2, kern := s, value := none }
        | (t2, some argv) =>
          { trace := t ++ t2 ++ [event.runprogram program argv argc]
            kern := s
            value := w.runprogram program argv argc }

/-- The `switch (callno)` of `mips_syscall`, entered with `retval`: the value
is `err` and `retval` after it. -/
def syscall_switch (k : headers) (w : world) (s : kernel) (tf : trapframe) (retval : Nat) :
    outcome (Nat × Nat) :=
  let callno := tf.tf_v0
  if callno = k.SYS__exit then
    -- thread_exit() does not return
    { trace := [event.thread_exit], kern := s, value := none }
  else if callno = k.SYS_reboot then
    { trace := [event.sys_reboot tf.tf_a0]
      kern := s
      value := (w.sys_reboot tf.tf_a0).map (fun err => (err, retval)) }
  else if callno = k.SYS_write then
    sys_write k w s tf.tf_a0 tf.tf_a1 tf.tf_a2 retval
  else if callno = k.SYS_read then
    sys_read k w s tf.tf_a0 tf.tf_a1 tf.tf_a2 retval
  else if callno = k.SYS_fork then
    sys_fork k w s tf
  else if callno = k.SYS_getpid then
    { trace := [], kern := s, value := some (sys_getpid s, retval) }
  else if callno = k.SYS_execv then
    let r := sys_execv k w s tf
    { trace := r.trace, kern := r.kern, value := r.value.map (fun err => (err, retval)) }
  else
    { trace := [event.kprintf "Unknown syscall %d\n" [callno]]
      kern := s
      value := some (k.ENOSYS, retval) }

/-- The result encoding of `mips_syscall`: the `if (err) ... else ...` and
`tf->tf_epc += 4`. -/
def encode_result (tf : trapframe) (err retval : Nat) : trapframe :=
  let tf1 : trapframe :=
    if err ≠ 0 then { tf with tf_v0 := err, tf_a3 := 1 }
    else { tf with tf_v0 := retval, tf_a3 := 0 }
  { tf1 with tf_epc := (tf1.tf_epc + 4) % WORD }

/-- `void mips_syscall(struct trapframe *tf)`: the value is the frame when the
function returns.  A failed `assert` stops the kernel.  The code outside this
file is taken to return at the spl it was called at. -/
def mips_syscall (k : headers) (w : world) (s : kernel) (tf : trapframe) : outcome trapframe :=
  if s.curspl ≠ 0 then
    { trace := [event.assert_failed], kern := s, value := none }
  else
    let retval := 0
    let r := syscall_switch k w s tf retval
    match r.value with
    | none => { trace := r.trace, kern := r.kern, value := none }
    | some (err, retval) =>
      if r.kern.curspl ≠ 0 then
        { trace := r.trace ++ [event.assert_failed], kern := r.kern, value := none }
      else
        { trace := r.trace, kern := r.kern, value := some (encode_result tf err retval) }

/-- The C string held in a kernel buffer: its bytes up to and including the
first NUL; `none` when the buffer holds no NUL. -/
def cstring : List Nat → Option (List Nat)
  | [] => none
  | b :: bs => if b = 0 then some [0] else (cstring bs).map (fun r => b :: r)

/-- The frames and address spaces handed to the scheduler's spawn operation
(`thread_fork_mod`) in a trace, in call order. -/
def spawned : List event → List (trapframe × Nat)
  | [] => []
  | event.thread_fork_mod _ tf as :: t => (tf, as) :: spawned t
  | _ :: t => spawned t

/-- The frames with which user mode is entered (`mips_usermode`) in a trace. -/
def entered : List event → List trapframe
  | [] => []
  | event.mips_usermode tf :: t => tf :: entered t
  | _ :: t => entered t

/-- The loader calls (`runprogram`) of a trace: path buffer, argument buffers
and argument count. -/
def loader_calls : List event → List (List Nat × List (List Nat) × Nat)
  | [] => []
  | event.runprogram program argv argc :: t => (program, argv, argc) :: loader_calls t
  | _ :: t => loader_calls t

/-! ## Well-formed user data -/

/-- User memory holds at `p` the string `bs`: the bytes of `bs`, none of them
0, then a NUL; the string and its NUL leave room in the address space. -/
def user_string (w : world) (p : Nat) (bs : List Nat) : Prop :=
  (∀ i, i < bs.length → w.load_byte ((p + i) % WORD) = some (bs.getD i 0) ∧ bs.getD i 0 ≠ 0) ∧
    w.load_byte ((p + bs.length) % WORD) = some 0 ∧ bs.length + 1 < WORD

/-- User memory holds at `args` the pointer array `ptrs`: the words of `ptrs`,
none of them null, then a null pointer. -/
def user_array (w : world) (args : Nat) (ptrs : List Nat) : Prop :=
  (∀ i, i < ptrs.length →
      w.load_word ((args + 4 * i) % WORD) = some (ptrs.getD i 0) ∧ ptrs.getD i 0 ≠ NULL) ∧
    w.load_word ((args + 4 * ptrs.length) % WORD) = some NULL ∧ ptrs.length < WORD / 4

/-- Entry `i` of the array `ptrs` points to the string `strs[i]`, for every
entry. -/
def user_strings (w : world) (ptrs : List Nat) (strs : List (List Nat)) : Prop :=
  ptrs.length = strs.length ∧
    ∀ i, i < ptrs.length → user_string w (ptrs.getD i 0) (strs.getD i [])

instance (w : world) (p : Nat) (bs : List Nat) : Decidable (user_string w p bs) := by
  unfold user_string; infer_instance

instance (w : world) (args : Nat) (ptrs : List Nat) : Decidable (user_array w args ptrs) := by
  unfold user_array; infer_instance

instance (w : world) (ptrs : List Nat) (strs : List (List Nat)) :
    Decidable (user_strings w ptrs strs) := by
  unfold user_strings; infer_instance

/-! ## Concrete inputs for the examples -/

/-- A world in which every call outside `syscall.c` succeeds and no user
address is mapped. -/
def calm : world where
  sys_reboot := fun _ => some 0
  kstrdup := fun _ => true
  vfs_open := fun _ _ => (0, 7)
  VOP_WRITE := fun _ _ => 0
  kmalloc := fun _ _ => some (fun _ => 255)
  as_copy := fun _ => (0, 9)
  thread_fork_mod := fun _ _ _ => (0, some 4)
  runprogram := fun _ _ _ => some 0
  load_word := fun _ => none
  load_byte := fun _ => none

/-- The running thread of the examples: pid 5, at spl 0. -/
def proc5 : kernel :=
  { curthread := { pid := 5, t_vmspace := 3 }, curspl := 0 }

/-- A frame of the examples with call number `v0` and arguments `a0 a1 a2`. -/
def frame (v0 a0 a1 a2 : Nat) : trapframe :=
  { tf_v0 := v0, tf_a0 := a0, tf_a1 := a1, tf_a2 := a2, tf_a3 := 77, tf_epc := 4194304,
    tf_other := [11, 22, 33] }

/-- As `calm`, but the console device refuses the write with error 5. -/
def console_down : world :=
  { calm with VOP_WRITE := fun _ _ => 5 }

/-- As `calm`, but `as_copy` fails with `ENOMEM` and leaves the word 12345 in
`temp_addrspace`. -/
def no_memory : world :=
  { calm with as_copy := fun _ => (os161.ENOMEM, 12345) }

/-- User memory holding the bytes `bs` from address `base` on. -/
def bytes_at (base : Nat) (bs : List Nat) (a : Nat) : Option Nat :=
  if base ≤ a then bs.get? (a - base) else none

/-- User memory holding the words `ws` from address `base` on, 4 bytes each. -/
def words_at (base : Nat) (ws : List Nat) (a : Nat) : Option Nat :=
  if base ≤ a ∧ (a - base) % 4 = 0 then ws.get? ((a - base) / 4) else none

/-- The bytes of `"ls"`. -/
def str_ls : List Nat := [108, 115]

/-- The bytes of `"/bin/ls"`. -/
def str_bin_ls : List Nat := [47, 98, 105, 110, 47, 108, 115]

/-- The user memory of the `execv` examples: the string `"ls"` at 8192, the
string `"/bin/ls"` at 12288, nothing else (address 0 is not mapped). -/
def two_strings (a : Nat) : Option Nat :=
  (bytes_at 8192 (str_ls ++ [0]) a).orElse (fun _ => bytes_at 12288 (str_bin_ls ++ [0]) a)

/-- `execv("/bin/ls", {"ls", NULL})`: the argument array is at 4096. -/
def user_ls : world :=
  { calm with load_word := words_at 4096 [8192, 0], load_byte := two_strings }

/-- `execv("/bin/ls", {NULL})`: an argument array with no entry, at 4096. -/
def user_no_args : world :=
  { calm with load_word := words_at 4096 [0], load_byte := two_strings }

/-- The `execv` frame of the examples: path pointer `prog`, array at 4096. -/
def execv_frame (prog : Nat) : trapframe :=
  frame os161.SYS_execv prog 4096 0

/-! ## The handlers leave the globals alone -/

theorem sys_write_kern (k : headers) (w : world) (s : kernel) (fd buf nbytes retval : Nat) :
    (sys_write k w s fd buf nbytes retval).kern = s := by
  unfold sys_write
  dsimp only
  split_ifs <;> rfl

theorem sys_read_kern (k : headers) (w : world) (s : kernel) (fd buf nbytes retval : Nat) :
    (sys_read k w s fd buf nbytes retval).kern = s := by
  unfold sys_read
  dsimp only
  split_ifs <;> rfl

theorem sys_fork_kern (k : headers) (w : world) (s : kernel) (tf : trapframe) :
    (sys_fork k w s tf).kern = s := by
  unfold sys_fork
  cases w.kmalloc 0 k.sizeof_trapframe with
  | none => rfl
  | some g =>
    simp only
    split <;> rfl

theorem sys_execv_kern (k : headers) (w : world) (s : kernel) (tf : trapframe) :
    (sys_execv k w s tf).kern = s := by
  unfold sys_execv
  dsimp only
  repeat' split
  all_goals rfl

theorem syscall_switch_kern (k : headers) (w : world) (s : kernel) (tf : trapframe)
    (retval : Nat) : (syscall_switch k w s tf retval).kern = s := by
  unfold syscall_switch
  simp only
  split_ifs
  · rfl
  · rfl
  · exact sys_write_kern ..
  · exact sys_read_kern ..
  · exact sys_fork_kern ..
  · rfl
  · exact sys_execv_kern ..
  · rfl

/-- When `mips_syscall` is entered at spl 0, it returns exactly when the
handler does, with the handler's outcome encoded in the frame. -/
theorem mips_syscall_value (k : headers) (w : world) (s : kernel) (tf : trapframe)
    (hspl : s.curspl = 0) :
    (mips_syscall k w s tf).value =
      (syscall_switch k w s tf 0).value.map (fun r => encode_result tf r.1 r.2) := by
  unfold mips_syscall
  have hk := syscall_switch_kern k w s tf 0
  rw [if_neg (by simp [hspl])]
  simp only
  cases h : (syscall_switch k w s tf 0).value with
  | none => simp
  | some r =>
    obtain ⟨err, retval⟩ := r
    simp [hk, hspl]

/-- Whenever `mips_syscall` returns a frame, the handler had an outcome and
the frame is its encoding. -/
theorem mips_syscall_returns (k : headers) (w : world) (s : kernel) (tf tf' : trapframe)
    (h : (mips_syscall k w s tf).value = some tf') :
    ∃ err retval, (syscall_switch k w s tf 0).value = some (err, retval) ∧
      tf' = encode_result tf err retval := by
  by_cases hspl : s.curspl = 0
  · rw [mips_syscall_value k w s tf hspl] at h
    cases hv : (syscall_switch k w s tf 0).value with
    | none => simp [hv] at h
    | some r =>
      simp [hv] at h
      exact ⟨r.1, r.2, rfl, h.symm⟩
  · unfold mips_syscall at h
    rw [if_pos hspl] at h
    simp at h

theorem encode_result_epc (tf : trapframe) (err retval : Nat) :
    (encode_result tf err retval).tf_epc = (tf.tf_epc + 4) % WORD := by
  unfold encode_result
  split_ifs <;> rfl

/-- The handlers of `write`, `read`, `getpid` and of an unrecognized number
always come back with an outcome. -/
theorem syscall_switch_total (k : headers) (w : world) (s : kernel) (tf : trapframe)
    (hexit : tf.tf_v0 ≠ k.SYS__exit) (hreboot : tf.tf_v0 ≠ k.SYS_reboot)
    (hfork : tf.tf_v0 ≠ k.SYS_fork) (hexecv : tf.tf_v0 ≠ k.SYS_execv) :
    ∃ err retval, (syscall_switch k w s tf 0).value = some (err, retval) := by
  unfold syscall_switch
  simp only [hexit, hreboot, hfork, hexecv, if_false]
  split_ifs
  · unfold sys_write
    dsimp only
    split_ifs <;> exact ⟨_, _, rfl⟩
  · unfold sys_read
    dsimp only
    split_ifs <;> exact ⟨_, _, rfl⟩
  · exact ⟨_, _, rfl⟩
  · exact ⟨_, _, rfl⟩

/-! ## `sys_execv` on well-formed user data -/

theorem strlen_from_user_string (w : world) (p : Nat) (bs : List Nat)
    (h : user_string w p bs) :
    ∀ fuel n, n ≤ bs.length → bs.length - n < fuel → strlen_from w p fuel n = some bs.length := by
  intro fuel
  induction fuel with
  | zero => intro n _ h2; omega
  | succ fuel ih =>
    intro n hn hf
    unfold strlen_from
    rcases Nat.lt_or_ge n bs.length with hlt | hge
    · obtain ⟨hb, hz⟩ := h.1 n hlt
      rw [hb]
      simp only [hz, if_false]
      exact ih (n + 1) hlt (by omega)
    · have : n = bs.length := by omega
      subst this
      rw [h.2.1]
      simp

theorem strlen_user_string (w : world) (p : Nat) (bs : List Nat) (h : user_string w p bs) :
    strlen w p = some bs.length := by
  unfold strlen
  exact strlen_from_user_string w p bs h WORD 0 (Nat.zero_le _) (by have := h.2.2; omega)

theorem copyinstr_from_user_string (k : headers) (w : world) (p : Nat) (bs : List Nat)
    (h : user_string w p bs) :
    ∀ len i, i ≤ bs.length → bs.length - i < len →
      copyinstr_from k w p len i = (0, bs.drop i ++ [0]) := by
  intro len
  induction len with
  | zero => intro i _ h2; omega
  | succ len ih =>
    intro i hi hf
    unfold copyinstr_from
    rcases Nat.lt_or_ge i bs.length with hlt | hge
    · obtain ⟨hb, hz⟩ := h.1 i hlt
      rw [hb]
      simp only [hz, if_false]
      rw [ih (i + 1) hlt (by omega)]
      have : bs.drop i = bs.getD i 0 :: bs.drop (i + 1) := by
        rw [List.getD_eq_getElem _ _ hlt]
        exact List.drop_eq_getElem_cons hlt
      rw [this]
      rfl
    · have : i = bs.length := by omega
      subst this
      rw [h.2.1]
      simp

theorem copyinstr_from_too_long (k : headers) (w : world) (p : Nat) (bs : List Nat)
    (h : user_string w p bs) :
    ∀ len i, i + len ≤ bs.length →
      copyinstr_from k w p len i = (k.ENAMETOOLONG, (bs.drop i).take len) := by
  intro len
  induction len with
  | zero => intro i _; simp [copyinstr_from]
  | succ len ih =>
    intro i hi
    have hlt : i < bs.length := by omega
    unfold copyinstr_from
    obtain ⟨hb, hz⟩ := h.1 i hlt
    rw [hb]
    simp only [hz, if_false]
    rw [ih (i + 1) (by omega)]
    have : bs.drop i = bs.getD i 0 :: bs.drop (i + 1) := by
      rw [List.getD_eq_getElem _ _ hlt]
      exact List.drop_eq_getElem_cons hlt
    rw [this]
    rfl

theorem overwrite_full (g : Nat → Nat) (size : Nat) (stored : List Nat)
    (h : stored.length = size) : overwrite (fresh_block g size) stored = stored := by
  unfold overwrite fresh_block
  rw [List.drop_eq_nil_of_le (by simp [h])]
  simp

theorem alloc_and_copy_user_string (k : headers) (w : world) (n p : Nat) (bs : List Nat)
    (g : Nat → Nat) (h : user_string w p bs) (hg : w.kmalloc n (bs.length + 1) = some g) :
    alloc_and_copy k w n p p =
      ([event.kmalloc (bs.length + 1), event.copyinstr p (bs.length + 1) 0],
        some (bs ++ [0])) := by
  have hsz : (bs.length + 1) % WORD = bs.length + 1 := Nat.mod_eq_of_lt h.2.2
  unfold alloc_and_copy
  rw [strlen_user_string w p bs h]
  simp only [hsz, hg]
  unfold copyinstr
  rw [copyinstr_from_user_string k w p bs h (bs.length + 1) 0 (Nat.zero_le _) (by omega)]
  simp only [List.drop_zero]
  rw [overwrite_full g (bs.length + 1) (bs ++ [0]) (by simp)]

theorem count_args_user_array (w : world) (args : Nat) (ptrs : List Nat)
    (h : user_array w args ptrs) :
    ∀ fuel i, i ≤ ptrs.length → ptrs.length - i < fuel →
      count_args w args fuel i = some ptrs.length := by
  intro fuel
  induction fuel with
  | zero => intro i _ h2; omega
  | succ fuel ih =>
    intro i hi hf
    unfold count_args
    rcases Nat.lt_or_ge i ptrs.length with hlt | hge
    · obtain ⟨hb, hz⟩ := h.1 i hlt
      rw [hb]
      simp only [hz, if_false]
      exact ih (i + 1) hlt (by omega)
    · have : i = ptrs.length := by omega
      subst this
      rw [h.2.1]
      simp

theorem loader_calls_append (t1 t2 : List event) :
    loader_calls (t1 ++ t2) = loader_calls t1 ++ loader_calls t2 := by
  induction t1 with
  | nil => rfl
  | cons e t ih => cases e <;> simp [loader_calls, ih]

theorem loader_calls_alloc_and_copy (k : headers) (w : world) (n s src : Nat) :
    loader_calls (alloc_and_copy k w n s src).1 = [] := by
  unfold alloc_and_copy
  cases strlen w s with
  | none => rfl
  | some l =>
    dsimp only
    cases w.kmalloc n ((l + 1) % WORD) <;> rfl

theorem loader_calls_copy_args (k : headers) (w : world) (args : Nat) :
    ∀ todo j, loader_calls (copy_args k w args todo j).1 = [] := by
  intro todo
  induction todo with
  | zero => intro j; rfl
  | succ todo ih =>
    intro j
    unfold copy_args
    cases w.load_word ((args + 4 * j) % WORD) with
    | none => rfl
    | some p =>
      dsimp only
      have h1 := loader_calls_alloc_and_copy k w (j + 1) p p
      have h2 := ih (j + 1)
      rcases hac : alloc_and_copy k w (j + 1) p p with ⟨t, _ | b⟩
      · simpa [hac] using h1
      · rw [hac] at h1
        rcases hca : copy_args k w args todo (j + 1) with ⟨t2, _ | bs⟩
        · rw [hca] at h2
          simp only [loader_calls_append]
          simp_all
        · rw [hca] at h2
          simp only [loader_calls_append]
          simp_all

theorem copy_args_user_strings (k : headers) (w : world) (args : Nat) (ptrs : List Nat)
    (strs : List (List Nat)) (harr : user_array w args ptrs) (hstr : user_strings w ptrs strs)
    (hheap : ∀ n size, (w.kmalloc n size).isSome) :
    ∀ todo j, j + todo = ptrs.length →
      (copy_args k w args todo j).2 = some ((strs.drop j).map (fun b => b ++ [0])) := by
  intro todo
  induction todo with
  | zero =>
    intro j hj
    have : strs.length ≤ j := by have := hstr.1; omega
    simp [copy_args, List.drop_eq_nil_of_le this]
  | succ todo ih =>
    intro j hj
    have hlt : j < ptrs.length := by omega
    have hlt' : j < strs.length := by have := hstr.1; omega
    unfold copy_args
    rw [(harr.1 j hlt).1]
    dsimp only
    obtain ⟨g, hg⟩ := Option.isSome_iff_exists.mp (hheap (j + 1) ((strs.getD j []).length + 1))
    rw [alloc_and_copy_user_string k w (j + 1) (ptrs.getD j 0) (strs.getD j []) g
      (hstr.2 j hlt) hg]
    have h2 := ih (j + 1) (by omega)
    rcases hca : copy_args k w args todo (j + 1) with ⟨t2, r⟩
    rw [hca] at h2
    simp only at h2
    subst h2
    dsimp only
    have : strs.drop j = strs.getD j [] :: strs.drop (j + 1) := by
      rw [List.getD_eq_getElem _ _ hlt']
      exact List.drop_eq_getElem_cons hlt'
    rw [this]
    rfl

theorem alloc_and_copy_of_strlen (k : headers) (w : world) (n s src l : Nat) (g : Nat → Nat)
    (hl : strlen w s = some l) (hg : w.kmalloc n ((l + 1) % WORD) = some g) :
    alloc_and_copy k w n s src =
      ([event.kmalloc ((l + 1) % WORD),
        event.copyinstr src ((l + 1) % WORD) (copyinstr k w src ((l + 1) % WORD)).1],
       some (overwrite (fresh_block g ((l + 1) % WORD)) (copyinstr k w src ((l + 1) % WORD)).2)) := by
  unfold alloc_and_copy
  rw [hl]
  simp only [hg]

/-- What `sys_execv` does on a well-formed, non-empty argument array when the
heap is not exhausted: one loader call, with the path buffer that the first
`kmalloc`/`copyinstr` pair produced, the copied arguments and their count. -/
theorem sys_execv_well_formed (k : headers) (w : world) (s : kernel) (tf : trapframe)
    (ptrs : List Nat) (strs : List (List Nat)) (g : Nat → Nat)
    (hne : 0 < ptrs.length) (harr : user_array w tf.tf_a1 ptrs)
    (hstr : user_strings w ptrs strs) (hheap : ∀ n size, (w.kmalloc n size).isSome)
    (hg : w.kmalloc 0 ((strs.getD 0 []).length + 1) = some g) :
    loader_calls (sys_execv k w s tf).trace =
      [(overwrite (fresh_block g ((strs.getD 0 []).length + 1))
          (copyinstr k w tf.tf_a0 ((strs.getD 0 []).length + 1)).2,
        strs.map (fun b => b ++ [0]), ptrs.length)] ∧
    (sys_execv k w s tf).value =
      w.runprogram (overwrite (fresh_block g ((strs.getD 0 []).length + 1))
          (copyinstr k w tf.tf_a0 ((strs.getD 0 []).length + 1)).2)
        (strs.map (fun b => b ++ [0])) ptrs.length := by
  have h0 := hstr.2 0 hne
  have hsz : ((strs.getD 0 []).length + 1) % WORD = (strs.getD 0 []).length + 1 :=
    Nat.mod_eq_of_lt h0.2.2
  have hcount := count_args_user_array w tf.tf_a1 ptrs harr (WORD / 4) 0 (Nat.zero_le _)
    (by have := harr.2.2; omega)
  have hw0 : w.load_word (tf.tf_a1 % WORD) = some (ptrs.getD 0 0) := by
    have := (harr.1 0 hne).1
    simpa using this
  have hac := alloc_and_copy_of_strlen k w 0 (ptrs.getD 0 0) tf.tf_a0 (strs.getD 0 []).length g
    (strlen_user_string w _ _ h0) (by rw [hsz]; exact hg)
  rw [hsz] at hac
  have hca := copy_args_user_strings k w tf.tf_a1 ptrs strs harr hstr hheap ptrs.length 0
    (by omega)
  have hcl := loader_calls_copy_args k w tf.tf_a1 ptrs.length 0
  rcases hc : copy_args k w tf.tf_a1 ptrs.length 0 with ⟨t2, r⟩
  rw [hc] at hca hcl
  simp only [List.drop_zero] at hca
  subst hca
  unfold sys_execv
  simp only [hcount, hw0, hac, hc]
  simp only [loader_calls_append, hcl]
  simp [loader_calls]

theorem cstring_append (bs rest : List Nat) (h : ∀ b ∈ bs, b ≠ 0) :
    cstring (bs ++ 0 :: rest) = some (bs ++ [0]) := by
  induction bs with
  | nil => simp [cstring]
  | cons b bs ih =>
    have hb : b ≠ 0 := h b (List.mem_cons_self _ _)
    have := ih (fun c hc => h c (List.mem_cons_of_mem _ hc))
    simp [cstring, hb, this]

theorem cstring_no_nul (bs : List Nat) (h : ∀ b ∈ bs, b ≠ 0) : cstring bs = none := by
  induction bs with
  | nil => rfl
  | cons b bs ih =>
    have hb : b ≠ 0 := h b (List.mem_cons_self _ _)
    have := ih (fun c hc => h c (List.mem_cons_of_mem _ hc))
    simp [cstring, hb, this]

theorem user_string_nonzero (w : world) (p : Nat) (bs : List Nat) (h : user_string w p bs) :
    ∀ b ∈ bs, b ≠ 0 := by
  intro b hb
  obtain ⟨i, hi, rfl⟩ := List.getElem_of_mem hb
  have := (h.1 i hi).2
  rwa [List.getD_eq_getElem _ _ hi] at this

/-- On a well-formed, non-empty argument array, with the heap not exhausted,
`sys_execv` calls the loader once, with argument count `k` and the `k`
argument strings, each with its NUL, in order; it returns what the loader
returns.  Nothing is assumed of the path pointer. -/
theorem execv_passes_args (k : headers) (w : world) (s : kernel) (tf : trapframe)
    (ptrs : List Nat) (strs : List (List Nat))
    (hne : 0 < ptrs.length) (harr : user_array w tf.tf_a1 ptrs)
    (hstr : user_strings w ptrs strs) (hheap : ∀ n size, (w.kmalloc n size).isSome) :
    ∃ program,
      loader_calls (sys_execv k w s tf).trace =
        [(program, strs.map (fun b => b ++ [0]), ptrs.length)] ∧
      (sys_execv k w s tf).value =
        w.runprogram program (strs.map (fun b => b ++ [0])) ptrs.length := by
  obtain ⟨g, hg⟩ := Option.isSome_iff_exists.mp (hheap 0 ((strs.getD 0 []).length + 1))
  exact ⟨_, sys_execv_well_formed k w s tf ptrs strs g hne harr hstr hheap hg⟩

/-- An instance of `execv_passes_args`: `execv("/bin/ls", {"ls", NULL})`. -/
theorem execv_passes_args_witness :
    ∃ program,
      loader_calls (sys_execv os161 user_ls proc5 (execv_frame 12288)).trace =
        [(program, [str_ls].map (fun b => b ++ [0]), [8192].length)] ∧
      (sys_execv os161 user_ls proc5 (execv_frame 12288)).value =
        user_ls.runprogram program ([str_ls].map (fun b => b ++ [0])) [8192].length :=
  execv_passes_args os161 user_ls proc5 (execv_frame 12288) [8192] [str_ls]
    (by decide) (by decide) (by decide) (fun _ _ => rfl)

/-- The path buffer that the loader gets on well-formed input, `l0` being the
length of the first argument string: a NUL-terminated copy of the path when
the path is no longer than `l0`, and otherwise the first `l0 + 1` bytes of the
path, with no NUL. -/
theorem execv_path_buffer (k : headers) (w : world) (s : kernel) (tf : trapframe)
    (ptrs : List Nat) (strs : List (List Nat)) (path : List Nat)
    (hne : 0 < ptrs.length) (harr : user_array w tf.tf_a1 ptrs)
    (hstr : user_strings w ptrs strs) (hheap : ∀ n size, (w.kmalloc n size).isSome)
    (hpath : user_string w tf.tf_a0 path) :
    ∃ program argv argc,
      loader_calls (sys_execv k w s tf).trace = [(program, argv, argc)] ∧
      (path.length ≤ (strs.getD 0 []).length → cstring program = some (path ++ [0])) ∧
      ((strs.getD 0 []).length < path.length →
        program = path.take ((strs.getD 0 []).length + 1) ∧ cstring program = none) := by
  obtain ⟨g, hg⟩ := Option.isSome_iff_exists.mp (hheap 0 ((strs.getD 0 []).length + 1))
  refine ⟨_, _, _, (sys_execv_well_formed k w s tf ptrs strs g hne harr hstr hheap hg).1, ?_, ?_⟩
  · intro hle
    unfold copyinstr
    rw [copyinstr_from_user_string k w tf.tf_a0 path hpath _ 0 (Nat.zero_le _) (by omega)]
    simp only [List.drop_zero]
    unfold overwrite
    rw [List.append_assoc]
    exact cstring_append path _ (user_string_nonzero w _ path hpath)
  · intro hlt
    unfold copyinstr
    rw [copyinstr_from_too_long k w tf.tf_a0 path hpath _ 0 (by omega)]
    simp only [List.drop_zero]
    rw [overwrite_full g _ _ (by rw [List.length_take]; omega)]
    refine ⟨rfl, cstring_no_nul _ ?_⟩
    intro b hb
    exact user_string_nonzero w _ path hpath b (List.mem_of_mem_take hb)

/-- With a path pointer that is not mapped, `copyinstr` reports `EFAULT` for
the path, and `sys_execv` calls the loader all the same. -/
theorem execv_bad_path_reaches_loader (k : headers) (w : world) (s : kernel) (tf : trapframe)
    (ptrs : List Nat) (strs : List (List Nat))
    (hne : 0 < ptrs.length) (harr : user_array w tf.tf_a1 ptrs)
    (hstr : user_strings w ptrs strs) (hheap : ∀ n size, (w.kmalloc n size).isSome)
    (hbad : w.load_byte (tf.tf_a0 % WORD) = none) :
    (copyinstr k w tf.tf_a0 ((strs.getD 0 []).length + 1)).1 = k.EFAULT ∧
    ∃ program,
      loader_calls (sys_execv k w s tf).trace =
        [(program, strs.map (fun b => b ++ [0]), ptrs.length)] := by
  refine ⟨?_, ?_⟩
  · unfold copyinstr copyinstr_from
    simp [hbad]
  · obtain ⟨program, h, _⟩ := execv_passes_args k w s tf ptrs strs hne harr hstr hheap
    exact ⟨program, h⟩

/-! ## `fork` whatever `as_copy` and `thread_fork_mod` return -/

/-- The results of `as_copy` and of `thread_fork_mod` are not looked at by
`sys_fork`: whatever they are, the child is spawned with the word left in
`temp_addrspace`, and when `child_thread->pid` reads `p` the caller's frame
reports success with value `p`. -/
theorem fork_frame_any_results (k : headers) (w : world) (s : kernel) (tf : trapframe)
    (g : Nat → Nat) (e as' r p : Nat)
    (hk : k.recognized.Nodup) (hspl : s.curspl = 0) (hcall : tf.tf_v0 = k.SYS_fork)
    (hmem : w.kmalloc 0 k.sizeof_trapframe = some g)
    (hcopy : w.as_copy s.curthread.t_vmspace = (e, as'))
    (hspawn : w.thread_fork_mod "child process" tf as' = (r, some p)) :
    (mips_syscall k w s tf).value =
        some { tf with tf_v0 := p, tf_a3 := 0, tf_epc := (tf.tf_epc + 4) % WORD } ∧
    spawned (mips_syscall k w s tf).trace = [(tf, as')] := by
  simp only [headers.recognized, List.nodup_cons, List.mem_cons, List.mem_singleton, not_or,
    List.not_mem_nil, not_false_eq_true, List.nodup_nil, and_true] at hk
  obtain ⟨⟨-, -, -, h1, -, -⟩, ⟨-, h2, h3, -, -⟩, ⟨h4, h5, -, -⟩, ⟨h6, -, -⟩, -, -⟩ := hk
  have hsw : syscall_switch k w s tf 0 = sys_fork k w s tf := by
    unfold syscall_switch
    simp only [hcall, Ne.symm h1, Ne.symm h3, Ne.symm h5, Ne.symm h6, if_false, if_true]
  have hf : sys_fork k w s tf =
      { trace := [event.kprintf "pc before: %x\n" [tf.tf_epc], event.kmalloc k.sizeof_trapframe,
                  event.as_copy s.curthread.t_vmspace,
                  event.thread_fork_mod "child process" tf as',
                  event.kprintf "We are returning child process wih pid :%d\n" [p]],
        kern := s, value := some (0, p) } := by
    unfold sys_fork
    simp [hmem, hcopy, hspawn]
  unfold mips_syscall
  rw [if_neg (by simp [hspl])]
  simp only [hsw, hf]
  rw [if_neg (by simp [hspl])]
  refine ⟨?_, ?_⟩
  · simp [encode_result]
  · simp [spawned]

/-! ## The claims -/

/-- C1: for every trap frame whose call number is not `SYS__exit`, a frame
that `mips_syscall` returns has `tf_epc` equal to the pre-trap `tf_epc` plus 4
modulo 2^32; entered at spl 0, `mips_syscall` does return such a frame for
every outcome `(err, retval)` of the handler, success or error, and the calls
that involve no non-returning collaborator (`write`, `read`, `getpid`, the
unrecognized numbers) always return. -/
theorem mips_syscall_resume_pc (k : headers) (w : world) (s : kernel) (tf : trapframe)
    (hexit : tf.tf_v0 ≠ k.SYS__exit) :
    (∀ tf', (mips_syscall k w s tf).value = some tf' → tf'.tf_epc = (tf.tf_epc + 4) % WORD) ∧
    (s.curspl = 0 → ∀ err retval, (syscall_switch k w s tf 0).value = some (err, retval) →
      ∃ tf', (mips_syscall k w s tf).value = some tf' ∧
        tf'.tf_epc = (tf.tf_epc + 4) % WORD) ∧
    (s.curspl = 0 → tf.tf_v0 ≠ k.SYS_reboot → tf.tf_v0 ≠ k.SYS_fork → tf.tf_v0 ≠ k.SYS_execv →
      ∃ tf', (mips_syscall k w s tf).value = some tf' ∧
        tf'.tf_epc = (tf.tf_epc + 4) % WORD) := by
  have part2 : s.curspl = 0 → ∀ err retval,
      (syscall_switch k w s tf 0).value = some (err, retval) →
      ∃ tf', (mips_syscall k w s tf).value = some tf' ∧
        tf'.tf_epc = (tf.tf_epc + 4) % WORD := by
    intro hspl err retval h
    refine ⟨encode_result tf err retval, ?_, encode_result_epc tf err retval⟩
    rw [mips_syscall_value k w s tf hspl, h]
    rfl
  refine ⟨?_, part2, ?_⟩
  · intro tf' h
    obtain ⟨err, retval, _, rfl⟩ := mips_syscall_returns k w s tf tf' h
    exact encode_result_epc tf err retval
  · intro hspl hreboot hfork hexecv
    obtain ⟨err, retval, h⟩ := syscall_switch_total k w s tf hexit hreboot hfork hexecv
    exact part2 hspl err retval h

/-- Witness of C1: an unrecognized call number 99 in the `calm` world. -/
theorem mips_syscall_resume_pc_witness :
    (frame 99 0 0 0).tf_v0 ≠ os161.SYS__exit ∧
    ((∀ tf', (mips_syscall os161 calm proc5 (frame 99 0 0 0)).value = some tf' →
        tf'.tf_epc = ((frame 99 0 0 0).tf_epc + 4) % WORD) ∧
     (proc5.curspl = 0 → ∀ err retval,
        (syscall_switch os161 calm proc5 (frame 99 0 0 0) 0).value = some (err, retval) →
        ∃ tf', (mips_syscall os161 calm proc5 (frame 99 0 0 0)).value = some tf' ∧
          tf'.tf_epc = ((frame 99 0 0 0).tf_epc + 4) % WORD) ∧
     (proc5.curspl = 0 → (frame 99 0 0 0).tf_v0 ≠ os161.SYS_reboot →
        (frame 99 0 0 0).tf_v0 ≠ os161.SYS_fork → (frame 99 0 0 0).tf_v0 ≠ os161.SYS_execv →
        ∃ tf', (mips_syscall os161 calm proc5 (frame 99 0 0 0)).value = some tf' ∧
          tf'.tf_epc = ((frame 99 0 0 0).tf_epc + 4) % WORD)) :=
  ⟨by decide, mips_syscall_resume_pc os161 calm proc5 (frame 99 0 0 0) (by decide)⟩

/-- C2: for a call number that is none of the recognized ones, `mips_syscall`
(entered at spl 0, `ENOSYS` being a nonzero error code) returns the frame with
`tf_v0 = ENOSYS`, `tf_a3 = 1`, `tf_epc` advanced by 4 and every other field as
before; it calls no handler and no collaborator (the only call is the
`kprintf` diagnostic), and `curthread`, with its address space, is as before. -/
theorem unknown_call_enosys (k : headers) (w : world) (s : kernel) (tf : trapframe)
    (hE : k.ENOSYS ≠ 0) (hspl : s.curspl = 0) (hN : tf.tf_v0 ∉ k.recognized) :
    (mips_syscall k w s tf).value =
        some { tf with tf_v0 := k.ENOSYS, tf_a3 := 1, tf_epc := (tf.tf_epc + 4) % WORD } ∧
    (mips_syscall k w s tf).trace = [event.kprintf "Unknown syscall %d\n" [tf.tf_v0]] ∧
    (mips_syscall k w s tf).kern = s := by
  simp only [headers.recognized, List.mem_cons, List.mem_singleton, not_or, List.mem_nil_iff,
    or_false] at hN
  obtain ⟨h1, h2, h3, h4, h5, h6, h7⟩ := hN
  have hsw : syscall_switch k w s tf 0 =
      { trace := [event.kprintf "Unknown syscall %d\n" [tf.tf_v0]], kern := s,
        value := some (k.ENOSYS, 0) } := by
    unfold syscall_switch
    simp only [h1, h2, h3, h4, h5, h6, h7, if_false]
  unfold mips_syscall
  rw [if_neg (by simp [hspl])]
  simp only [hsw]
  rw [if_neg (by simp [hspl])]
  refine ⟨?_, rfl, rfl⟩
  simp [encode_result, hE]

/-- Witness of C2: call number 99 with the OS/161 constants. -/
theorem unknown_call_enosys_witness :
    os161.ENOSYS ≠ 0 ∧ proc5.curspl = 0 ∧ (frame 99 1 2 3).tf_v0 ∉ os161.recognized ∧
    ((mips_syscall os161 calm proc5 (frame 99 1 2 3)).value =
        some { frame 99 1 2 3 with tf_v0 := os161.ENOSYS, tf_a3 := 1,
                                   tf_epc := ((frame 99 1 2 3).tf_epc + 4) % WORD } ∧
     (mips_syscall os161 calm proc5 (frame 99 1 2 3)).trace =
        [event.kprintf "Unknown syscall %d\n" [(frame 99 1 2 3).tf_v0]] ∧
     (mips_syscall os161 calm proc5 (frame 99 1 2 3)).kern = proc5) :=
  ⟨by decide, by decide, by decide,
    unknown_call_enosys os161 calm proc5 (frame 99 1 2 3) (by decide) (by decide) (by decide)⟩

/-- C3: whenever `mips_syscall` returns a frame, the handler came back with an
outcome `(err, retval)` and the frame encodes that outcome only: `err = 0`
gives `tf_v0 = retval`, `tf_a3 = 0`; `err ≠ 0` gives `tf_v0 = err`,
`tf_a3 = 1`, and the frame is the same whatever `retval` the handler had
stored.  So `tf_a3` is 0 or 1, and it is 1 exactly when `err ≠ 0`. -/
theorem mips_syscall_result_encoding (k : headers) (w : world) (s : kernel)
    (tf tf' : trapframe) (h : (mips_syscall k w s tf).value = some tf') :
    ∃ err retval, (syscall_switch k w s tf 0).value = some (err, retval) ∧
      (err = 0 → tf'.tf_v0 = retval ∧ tf'.tf_a3 = 0) ∧
      (err ≠ 0 → tf'.tf_v0 = err ∧ tf'.tf_a3 = 1 ∧ ∀ r, tf' = encode_result tf err r) ∧
      (tf'.tf_a3 = 0 ∨ tf'.tf_a3 = 1) ∧
      (tf'.tf_a3 = 1 ↔ err ≠ 0) := by
  obtain ⟨err, retval, hsw, rfl⟩ := mips_syscall_returns k w s tf tf' h
  refine ⟨err, retval, hsw, ?_, ?_, ?_, ?_⟩
  · intro h0
    simp [encode_result, h0]
  · intro h1
    refine ⟨?_, ?_, ?_⟩
    · simp [encode_result, h1]
    · simp [encode_result, h1]
    · intro r
      simp [encode_result, h1]
  · by_cases h0 : err = 0
    · left
      simp [encode_result, h0]
    · right
      simp [encode_result, h0]
  · by_cases h0 : err = 0
    · simp [encode_result, h0]
    · simp [encode_result, h0]

/-- Witness of C3: a `write` of 10 bytes to fd 1 whose device write fails with
error 5 after `sys_write` has stored `nbytes` in `retval`: the handler's outcome
is `(5, 10)` and the frame shows 5 and the error flag, not 10. -/
theorem mips_syscall_result_encoding_witness :
    (mips_syscall os161 console_down proc5 (frame os161.SYS_write 1 4096 10)).value =
      some { frame os161.SYS_write 1 4096 10 with tf_v0 := 5, tf_a3 := 1, tf_epc := 4194308 } ∧
    (syscall_switch os161 console_down proc5 (frame os161.SYS_write 1 4096 10) 0).value =
      some (5, 10) ∧
    ∃ err retval,
      (syscall_switch os161 console_down proc5 (frame os161.SYS_write 1 4096 10) 0).value =
        some (err, retval) ∧
      (err = 0 → ({ frame os161.SYS_write 1 4096 10 with
          tf_v0 := 5, tf_a3 := 1, tf_epc := 4194308 } : trapframe).tf_v0 = retval ∧
        ({ frame os161.SYS_write 1 4096 10 with
          tf_v0 := 5, tf_a3 := 1, tf_epc := 4194308 } : trapframe).tf_a3 = 0) ∧
      (err ≠ 0 → ({ frame os161.SYS_write 1 4096 10 with
          tf_v0 := 5, tf_a3 := 1, tf_epc := 4194308 } : trapframe).tf_v0 = err ∧
        ({ frame os161.SYS_write 1 4096 10 with
          tf_v0 := 5, tf_a3 := 1, tf_epc := 4194308 } : trapframe).tf_a3 = 1 ∧
        ∀ r, ({ frame os161.SYS_write 1 4096 10 with
          tf_v0 := 5, tf_a3 := 1, tf_epc := 4194308 } : trapframe) =
            encode_result (frame os161.SYS_write 1 4096 10) err r) ∧
      (({ frame os161.SYS_write 1 4096 10 with
          tf_v0 := 5, tf_a3 := 1, tf_epc := 4194308 } : trapframe).tf_a3 = 0 ∨
        ({ frame os161.SYS_write 1 4096 10 with
          tf_v0 := 5, tf_a3 := 1, tf_epc := 4194308 } : trapframe).tf_a3 = 1) ∧
      (({ frame os161.SYS_write 1 4096 10 with
          tf_v0 := 5, tf_a3 := 1, tf_epc := 4194308 } : trapframe).tf_a3 = 1 ↔ err ≠ 0) :=
  ⟨by decide, by decide,
    mips_syscall_result_encoding os161 console_down proc5 (frame os161.SYS_write 1 4096 10)
      { frame os161.SYS_write 1 4096 10 with tf_v0 := 5, tf_a3 := 1, tf_epc := 4194308 }
      (by decide)⟩

/-- C4: at a `fork` call entered at spl 0, when the storage for the frame copy
is allocated, `as_copy` succeeds leaving `as'`, and `thread_fork_mod` succeeds
with a child of pid `p`, the parent's frame after `mips_syscall` has
`tf_v0 = p`, `tf_a3 = 0`, `tf_epc` advanced by 4 and every other register as
before the trap; the frame handed to the child is the caller's frame as it
was, and the caller's globals are as before. -/
theorem fork_parent_frame (k : headers) (w : world) (s : kernel) (tf : trapframe)
    (g : Nat → Nat) (as' p : Nat)
    (hk : k.recognized.Nodup) (hspl : s.curspl = 0) (hcall : tf.tf_v0 = k.SYS_fork)
    (hmem : w.kmalloc 0 k.sizeof_trapframe = some g)
    (hcopy : w.as_copy s.curthread.t_vmspace = (0, as'))
    (hspawn : w.thread_fork_mod "child process" tf as' = (0, some p)) :
    (mips_syscall k w s tf).value =
        some { tf with tf_v0 := p, tf_a3 := 0, tf_epc := (tf.tf_epc + 4) % WORD } ∧
    spawned (mips_syscall k w s tf).trace = [(tf, as')] ∧
    (mips_syscall k w s tf).kern = s := by
  simp only [headers.recognized, List.nodup_cons, List.mem_cons, List.mem_singleton, not_or,
    List.not_mem_nil, not_false_eq_true, List.nodup_nil, and_true] at hk
  obtain ⟨⟨-, -, -, h1, -, -⟩, ⟨-, h2, h3, -, -⟩, ⟨h4, h5, -, -⟩, ⟨h6, -, -⟩, -, -⟩ := hk
  have hsw : syscall_switch k w s tf 0 = sys_fork k w s tf := by
    unfold syscall_switch
    simp only [hcall, Ne.symm h1, Ne.symm h3, Ne.symm h5, Ne.symm h6, if_false, if_true]
  have hf : sys_fork k w s tf =
      { trace := [event.kprintf "pc before: %x\n" [tf.tf_epc], event.kmalloc k.sizeof_trapframe,
                  event.as_copy s.curthread.t_vmspace,
                  event.thread_fork_mod "child process" tf as',
                  event.kprintf "We are returning child process wih pid :%d\n" [p]],
        kern := s, value := some (0, p) } := by
    unfold sys_fork
    simp [hmem, hcopy, hspawn]
  unfold mips_syscall
  rw [if_neg (by simp [hspl])]
  simp only [hsw, hf]
  rw [if_neg (by simp [hspl])]
  refine ⟨?_, ?_, rfl⟩
  · simp [encode_result]
  · simp [spawned]

/-- Witness of C4: pid 5 forks in the `calm` world and gets child 4. -/
theorem fork_parent_frame_witness :
    os161.recognized.Nodup ∧ proc5.curspl = 0 ∧ (frame 2 0 0 0).tf_v0 = os161.SYS_fork ∧
    calm.kmalloc 0 os161.sizeof_trapframe = some (fun _ => 255) ∧
    calm.as_copy proc5.curthread.t_vmspace = (0, 9) ∧
    calm.thread_fork_mod "child process" (frame 2 0 0 0) 9 = (0, some 4) ∧
    ((mips_syscall os161 calm proc5 (frame 2 0 0 0)).value =
        some { frame 2 0 0 0 with tf_v0 := 4, tf_a3 := 0,
                                  tf_epc := ((frame 2 0 0 0).tf_epc + 4) % WORD } ∧
     spawned (mips_syscall os161 calm proc5 (frame 2 0 0 0)).trace = [(frame 2 0 0 0, 9)] ∧
     (mips_syscall os161 calm proc5 (frame 2 0 0 0)).kern = proc5) :=
  ⟨by decide, rfl, rfl, rfl, rfl, rfl,
    fork_parent_frame os161 calm proc5 (frame 2 0 0 0) (fun _ => 255) 9 4
      (by decide) rfl rfl rfl rfl rfl⟩

/-- C5 fails on the code: with `as_copy` failing with `ENOMEM`, `sys_fork` still
calls `thread_fork_mod` (with the word left in `temp_addrspace`), and the
caller's frame reports success with the child's pid, not `ENOMEM`. -/
theorem fork_ignores_as_copy_failure :
    (no_memory.as_copy proc5.curthread.t_vmspace).1 = os161.ENOMEM ∧
    spawned (mips_syscall os161 no_memory proc5 (frame os161.SYS_fork 0 0 0)).trace =
      [(frame os161.SYS_fork 0 0 0, 12345)] ∧
    (mips_syscall os161 no_memory proc5 (frame os161.SYS_fork 0 0 0)).value =
      some { frame os161.SYS_fork 0 0 0 with tf_v0 := 4, tf_a3 := 0, tf_epc := 4194308 } := by
  decide

/-- C6: at a `fork` call entered at spl 0 whose frame copy is allocated, the
frame handed to the child is the parent's pre-trap frame `tf`, and
`md_forkentry_mod`, run on it in the child, enters user mode with exactly one
frame: `tf` with `tf_v0 = 0`, `tf_a3 = 0` and `tf_epc = tf.tf_epc + 4` modulo
2^32, every other register as in `tf`.  That program counter is the one of
every frame the parent's `mips_syscall` returns.  Nothing of this depends on
what `thread_fork_mod` answers. -/
theorem fork_child_frame (k : headers) (w : world) (s : kernel) (tf : trapframe)
    (g : Nat → Nat)
    (hk : k.recognized.Nodup) (hspl : s.curspl = 0) (hcall : tf.tf_v0 = k.SYS_fork)
    (hmem : w.kmalloc 0 k.sizeof_trapframe = some g) :
    ∃ as', spawned (mips_syscall k w s tf).trace = [(tf, as')] ∧
      ∀ sc : kernel,
        entered (md_forkentry_mod tf as' sc).trace =
          [{ tf with tf_v0 := 0, tf_a3 := 0, tf_epc := (tf.tf_epc + 4) % WORD }] ∧
        (md_forkentry_mod tf as' sc).kern.curthread.t_vmspace = as' ∧
        ∀ tf', (mips_syscall k w s tf).value = some tf' →
          tf'.tf_epc = (tf.tf_epc + 4) % WORD := by
  simp only [headers.recognized, List.nodup_cons, List.mem_cons, List.mem_singleton, not_or,
    List.not_mem_nil, not_false_eq_true, List.nodup_nil, and_true] at hk
  obtain ⟨⟨-, -, -, h1, -, -⟩, ⟨-, h2, h3, -, -⟩, ⟨h4, h5, -, -⟩, ⟨h6, -, -⟩, -, -⟩ := hk
  have hsw : syscall_switch k w s tf 0 = sys_fork k w s tf := by
    unfold syscall_switch
    simp only [hcall, Ne.symm h1, Ne.symm h3, Ne.symm h5, Ne.symm h6, if_false, if_true]
  refine ⟨(w.as_copy s.curthread.t_vmspace).2, ?_, ?_⟩
  · unfold mips_syscall
    rw [if_neg (by simp [hspl])]
    simp only [hsw]
    unfold sys_fork
    simp only [hmem]
    cases hr : (w.thread_fork_mod "child process" tf (w.as_copy s.curthread.t_vmspace).2).2 with
    | none => simp [spawned]
    | some p => simp [spawned, hspl]
  · intro sc
    refine ⟨?_, rfl, ?_⟩
    · simp [md_forkentry_mod, entered]
    · intro tf' h
      obtain ⟨err, retval, _, rfl⟩ := mips_syscall_returns k w s tf tf' h
      exact encode_result_epc tf err retval

/-- Witness of C6: pid 5 forks in the `calm` world. -/
theorem fork_child_frame_witness :
    os161.recognized.Nodup ∧ proc5.curspl = 0 ∧ (frame 2 0 0 0).tf_v0 = os161.SYS_fork ∧
    calm.kmalloc 0 os161.sizeof_trapframe = some (fun _ => 255) ∧
    ∃ as', spawned (mips_syscall os161 calm proc5 (frame 2 0 0 0)).trace =
        [(frame 2 0 0 0, as')] ∧
      ∀ sc : kernel,
        entered (md_forkentry_mod (frame 2 0 0 0) as' sc).trace =
          [{ frame 2 0 0 0 with tf_v0 := 0, tf_a3 := 0,
                                tf_epc := ((frame 2 0 0 0).tf_epc + 4) % WORD }] ∧
        (md_forkentry_mod (frame 2 0 0 0) as' sc).kern.curthread.t_vmspace = as' ∧
        ∀ tf', (mips_syscall os161 calm proc5 (frame 2 0 0 0)).value = some tf' →
          tf'.tf_epc = ((frame 2 0 0 0).tf_epc + 4) % WORD :=
  ⟨by decide, rfl, rfl, rfl,
    fork_child_frame os161 calm proc5 (frame 2 0 0 0) (fun _ => 255) (by decide) rfl rfl rfl⟩

/-- C7 fails on the code: `mips_syscall` stores the result of `sys_getpid` in
`err`, not in `retval`, so for the thread of pid 5 the frame comes back with
`tf_v0 = 5` and the error flag `tf_a3 = 1`. -/
theorem getpid_sets_error_flag :
    sys_getpid proc5 = 5 ∧
    (mips_syscall os161 calm proc5 (frame os161.SYS_getpid 0 0 0)).value =
      some { frame os161.SYS_getpid 0 0 0 with tf_v0 := 5, tf_a3 := 1, tf_epc := 4194308 } := by
  decide

/-- The general form of the `getpid` defect: entered at spl 0, the frame has
the pid in `tf_v0`, and the error flag is set exactly when the pid is not 0. -/
theorem getpid_frame (k : headers) (w : world) (s : kernel) (tf : trapframe)
    (hk : k.recognized.Nodup) (hspl : s.curspl = 0) (hcall : tf.tf_v0 = k.SYS_getpid) :
    (mips_syscall k w s tf).value =
      some { tf with tf_v0 := s.curthread.pid,
                     tf_a3 := if s.curthread.pid ≠ 0 then 1 else 0,
                     tf_epc := (tf.tf_epc + 4) % WORD } := by
  simp only [headers.recognized, List.nodup_cons, List.mem_cons, List.mem_singleton, not_or,
    List.not_mem_nil, not_false_eq_true, List.nodup_nil, and_true] at hk
  obtain ⟨⟨-, -, -, -, h1, -⟩, ⟨-, -, -, h2, -⟩, ⟨-, -, h3, -⟩, ⟨-, h4, -⟩, ⟨h5, -⟩, -⟩ := hk
  rw [mips_syscall_value k w s tf hspl]
  unfold syscall_switch
  simp only [hcall, Ne.symm h1, Ne.symm h2, Ne.symm h3, Ne.symm h4, Ne.symm h5, if_false,
    if_true]
  by_cases hp : s.curthread.pid = 0
  · simp [encode_result, sys_getpid, hp]
  · simp [encode_result, sys_getpid, hp]

/-- C8 fails on the code for `k = 0`: with a valid path and an argument array
whose first entry is the null pointer, `sys_execv` evaluates
`strlen(args[0])` on the null pointer, the kernel faults, and the loader is
never called with argument count 0. -/
theorem execv_no_args_faults :
    count_args user_no_args (execv_frame 12288).tf_a1 (WORD / 4) 0 = some 0 ∧
    cstring ((List.range 8).filterMap (fun i => user_no_args.load_byte (12288 + i))) =
      some (str_bin_ls ++ [0]) ∧
    (sys_execv os161 user_no_args proc5 (execv_frame 12288)).trace = [event.kernel_fault] ∧
    (sys_execv os161 user_no_args proc5 (execv_frame 12288)).value = none ∧
    loader_calls (mips_syscall os161 user_no_args proc5 (execv_frame 12288)).trace = [] ∧
    (mips_syscall os161 user_no_args proc5 (execv_frame 12288)).value = none := by
  decide

/-- C9 fails on the code: with the path pointer 20480 not mapped, `copyinstr`
reports `EFAULT`, `sys_execv` drops that result and calls the loader with the
bytes the fresh buffer happened to hold, and the call returns what the loader
returns (here 0, success). -/
theorem execv_ignores_copy_fault :
    user_ls.load_byte 20480 = none ∧
    (sys_execv os161 user_ls proc5 (execv_frame 20480)).trace =
      [event.kmalloc 3, event.copyinstr 20480 3 os161.EFAULT,
       event.kmalloc 3, event.copyinstr 8192 3 0,
       event.runprogram [255, 255, 255] [str_ls ++ [0]] 1] ∧
    (sys_execv os161 user_ls proc5 (execv_frame 20480)).value = some 0 ∧
    (mips_syscall os161 user_ls proc5 (execv_frame 20480)).value =
      some { execv_frame 20480 with tf_v0 := 0, tf_a3 := 0, tf_epc := 4194308 } := by
  decide

/-- C10 fails on the code: for `execv("/bin/ls", {"ls", NULL})` the path buffer
has `strlen("ls") + 1 = 3` bytes, `copyinstr` stops after `"/bi"` with
`ENAMETOOLONG`, and the loader is handed a buffer that holds no NUL and is
not the path. -/
theorem execv_truncates_path :
    strlen user_ls 12288 = some str_bin_ls.length ∧
    strlen user_ls 8192 = some str_ls.length ∧
    (sys_execv os161 user_ls proc5 (execv_frame 12288)).trace =
      [event.kmalloc 3, event.copyinstr 12288 3 os161.ENAMETOOLONG,
       event.kmalloc 3, event.copyinstr 8192 3 0,
       event.runprogram [47, 98, 105] [str_ls ++ [0]] 1] ∧
    cstring [47, 98, 105] = none ∧
    [47, 98, 105] ≠ str_bin_ls ++ [0] := by
  decide

end OS161
